import Mathlib

/-!
Shallow embedding of the simulation core of a side-scrolling arcade game
(source: src/flappy_bird.py). Python floats are modelled as rationals,
Python ints as integers. Randomness (gap sampling, coin jitter, the
10 percent special draw, the initial bob phase) enters the code through
library calls; here each draw is an explicit input of the operation that
consumes it. The transcendental math.sin is modelled as an explicit
function parameter sinQ, since no verified property depends on its
values. Persistence (SQLite) is modelled by explicit persisted fields;
the best-effort exception handlers around store calls are modelled by
Option-valued inputs for loads, and the success path for writes.
-/

namespace FlappyBird

/-- Window width, from the constant WINDOW_WIDTH = 400. -/
def WINDOW_WIDTH : ℤ := 400

/-- Window height, from the constant WINDOW_HEIGHT = 600. -/
def WINDOW_HEIGHT : ℤ := 600

/-- Per-tick gravity, from GRAVITY = 0.5. -/
def GRAVITY : ℚ := 1/2

/-- Upward impulse velocity, from FLAP_STRENGTH = -6. -/
def FLAP_STRENGTH : ℚ := -6

/-- Terminal falling velocity, from MAX_VELOCITY = 10. -/
def MAX_VELOCITY : ℚ := 10

/-- Falling acceleration multiplier, from ACCELERATION = 1.05. -/
def ACCELERATION : ℚ := 105/100

/-- Leftward scroll speed of pipes and coins, from PIPE_SPEED = 3. -/
def PIPE_SPEED : ℤ := 3

/-- Vertical gap between the two barriers of a pipe, from PIPE_GAP = 150. -/
def PIPE_GAP : ℤ := 150

/-- Pipe spawn interval in milliseconds, from PIPE_FREQUENCY = 1500. -/
def PIPE_FREQUENCY : ℤ := 1500

/-- Coin spawn interval in milliseconds, from COIN_FREQUENCY = 2000. -/
def COIN_FREQUENCY : ℤ := 2000

/-- Price table of the skin catalog Bird.SKINS. Only the price of each
entry is simulation-relevant; the colour fields are used by drawing code
only, which is out of scope. Unknown ids map to none. -/
def SKINS_price : String → Option ℤ
  | "default" => some 0
  | "blue_jay" => some 50
  | "cardinal" => some 100
  | "rainbow" => some 200
  | "ninja" => some 150
  | "ghost" => some 175
  | "phoenix" => some 250
  | "emerald" => some 150
  | "robot" => some 300
  | _ => none

/-- State of the Bird object: x fixed at construction, y and velocity
advanced each tick, angle is the visual rotation, plus the cosmetic
skin state. Fields mirror Bird.__init__. -/
structure Bird where
  x : ℤ
  y : ℚ
  velocity : ℚ
  size : ℤ
  angle : ℚ
  current_skin : String
  owned_skins : List String
  deriving Repr, DecidableEq

/-- Bird.flap: set velocity to FLAP_STRENGTH and snap the rotation to
the nose-up angle 20. -/
def Bird.flap (b : Bird) : Bird :=
  { b with velocity := FLAP_STRENGTH, angle := 20 }

/-- Bird.update: if velocity is strictly positive (falling) apply the
accelerating-fall model min(velocity * ACCELERATION + GRAVITY,
MAX_VELOCITY), otherwise add plain GRAVITY; then move y by the new
velocity; then update the rotation from the sign of the new velocity:
snap to 20 while rising, otherwise decay by 4 clamped at -70. -/
def Bird.update (b : Bird) : Bird :=
  let v : ℚ := if b.velocity > 0
    then min (b.velocity * ACCELERATION + GRAVITY) MAX_VELOCITY
    else b.velocity + GRAVITY
  let y : ℚ := b.y + v
  let angle : ℚ := if v < 0 then 20 else max (-70) (b.angle - 4)
  { b with velocity := v, y := y, angle := angle }

/-- Bird.set_skin: equip a skin only when it is catalog-known and owned;
otherwise do nothing. (The persistence write save_current_skin only
mirrors the field and is modelled by the field itself.) -/
def Bird.set_skin (s : String) (b : Bird) : Bird :=
  if (SKINS_price s).isSome ∧ s ∈ b.owned_skins then
    { b with current_skin := s }
  else b

/-- Bird.purchase_skin: succeed only when the skin is catalog-known, not
already owned and the offered coin balance covers the price; on success
add the skin to the owned set, otherwise change nothing. Returns the
updated bird and the success flag. -/
def Bird.purchase_skin (s : String) (coins : ℤ) (b : Bird) : Bird × Bool :=
  match SKINS_price s with
  | some price =>
    if s ∉ b.owned_skins ∧ coins ≥ price then
      ({ b with owned_skins := b.owned_skins.insert s }, true)
    else (b, false)
  | none => (b, false)

/-- Bird.load_owned_skins: dbSkins is the result of reading the owned
set from the store, none when the read raised. On a successful
non-empty read replace the owned set by the stored one; in every
successful case re-add the default; on failure fall back to the default
set alone. -/
def Bird.load_owned_skins (dbSkins : Option (List String)) (b : Bird) : Bird :=
  match dbSkins with
  | some skins =>
      { b with owned_skins :=
          (if skins.isEmpty then b.owned_skins else skins).insert "default" }
  | none => { b with owned_skins := ["default"] }

/-- Bird.load_current_skin: dbSkin is the stored selected skin, outer
none when the read raised, inner none when the key is absent. Accept a
stored skin only when it is catalog-known and owned (a stored empty
string is also rejected in the source, by falsiness, and is equally
rejected here since it is not catalog-known); on a raised read reset to
the default skin. -/
def Bird.load_current_skin (dbSkin : Option (Option String)) (b : Bird) : Bird :=
  match dbSkin with
  | some (some s) =>
      if (SKINS_price s).isSome ∧ s ∈ b.owned_skins then
        { b with current_skin := s }
      else b
  | some none => b
  | none => { b with current_skin := "default" }

/-- Bird.__init__: place the bird at (WINDOW_WIDTH // 3,
WINDOW_HEIGHT // 2) with zero velocity and angle, size 30, the default
skin owned and equipped, then run the two load steps against the store. -/
def Bird.init (dbSkins : Option (List String)) (dbSkin : Option (Option String)) : Bird :=
  let b : Bird :=
    { x := WINDOW_WIDTH / 3
      y := ((WINDOW_HEIGHT / 2 : ℤ) : ℚ)
      velocity := 0
      size := 30
      angle := 0
      current_skin := "default"
      owned_skins := ["default"] }
  (b.load_owned_skins dbSkins).load_current_skin dbSkin

/-- State of a Pipe object, from Pipe.__init__: the gap centre gap_y is
a random draw (uniform on [150, WINDOW_HEIGHT - 150]) taken as input,
x starts at the right edge, width is 80, the passed flag starts false.
The edge_width field is drawing-only and out of scope. -/
structure Pipe where
  gap_y : ℤ
  x : ℤ
  width : ℤ
  passed : Bool
  deriving Repr, DecidableEq

/-- Pipe.__init__ with the random gap draw made explicit. -/
def Pipe.init (gap : ℤ) : Pipe :=
  { gap_y := gap, x := WINDOW_WIDTH, width := 80, passed := false }

/-- Pipe.update: move left by PIPE_SPEED; the returned flag is whether
the pipe is still within the extended visible range (x > -width). -/
def Pipe.update (p : Pipe) : Pipe × Bool :=
  let p1 := { p with x := p.x - PIPE_SPEED }
  (p1, decide (p1.x > -p1.width))

/-- Truncation of a rational toward zero, the conversion a C int
constructor (pygame.Rect) applies to a Python float coordinate. -/
def truncQ (q : ℚ) : ℤ := Int.tdiv q.num q.den

/-- Strict axis-aligned rectangle overlap, the semantics of
pygame.Rect.colliderect for the positively-sized rectangles this game
builds (sharing only an edge does not collide). -/
def rectsCollide (x1 y1 w1 h1 x2 y2 w2 h2 : ℤ) : Bool :=
  decide (x1 < x2 + w2 ∧ x2 < x1 + w1 ∧ y1 < y2 + h2 ∧ y2 < y1 + h1)

/-- Pipe.check_collision: the bird box (x, y truncated, size, size)
against the top barrier (x, 0, width, gap_y - PIPE_GAP // 2) or the
bottom barrier (x, gap_y + PIPE_GAP // 2, width, rest of the screen). -/
def Pipe.check_collision (p : Pipe) (b : Bird) : Bool :=
  let birdY := truncQ b.y
  rectsCollide b.x birdY b.size b.size p.x 0 p.width (p.gap_y - PIPE_GAP / 2)
  || rectsCollide b.x birdY b.size b.size p.x (p.gap_y + PIPE_GAP / 2) p.width
       (WINDOW_HEIGHT - (p.gap_y + PIPE_GAP / 2))

/-- State of a Coin object, from Coin.__init__. The 10 percent special
draw and the random initial bob phase are taken as inputs at creation. -/
structure Coin where
  x : ℤ
  y : ℚ
  radius : ℤ
  is_special : Bool
  value : ℤ
  collected : Bool
  bob_range : ℤ
  bob_speed : ℚ
  start_y : ℚ
  time : ℚ
  deriving Repr, DecidableEq

/-- Coin.__init__ with the special draw and initial phase explicit:
radius 10, value 10 for a special coin and 5 otherwise, uncollected,
bob range 20, bob speed 0.05, start_y anchored at the given y. -/
def Coin.init (x : ℤ) (y : ℚ) (special : Bool) (t0 : ℚ) : Coin :=
  { x := x, y := y, radius := 10, is_special := special
    value := if special then 10 else 5
    collected := false, bob_range := 20, bob_speed := 1/20
    start_y := y, time := t0 }

/-- Coin.update: move left by PIPE_SPEED, advance the bob phase by
bob_speed and recompute y = start_y + sin(time) * bob_range; the
returned flag is whether the coin is still on screen
(x > -radius * 2). The sine is the parameter sinQ. -/
def Coin.update (sinQ : ℚ → ℚ) (c : Coin) : Coin × Bool :=
  let t := c.time + c.bob_speed
  let c1 := { c with x := c.x - PIPE_SPEED, time := t
                     y := c.start_y + sinQ t * c.bob_range }
  (c1, decide (c1.x > -c.radius * 2))

/-- The squared distance between the bird centre
(x + size // 2, y + size // 2) and the coin centre, as computed under
the square root in Coin.check_collision. -/
def coinDist2 (c : Coin) (b : Bird) : ℚ :=
  (((b.x + b.size / 2 : ℤ) : ℚ) - (c.x : ℚ))^2 + ((b.y + ((b.size / 2 : ℤ) : ℚ)) - c.y)^2

/-- The collection threshold radius + size // 2 of Coin.check_collision. -/
def coinBound (c : Coin) (b : Bird) : ℤ := c.radius + b.size / 2

/-- Coin.check_collision: compare the Euclidean distance between the
bird centre and the coin centre against radius + size // 2, collected
on strict inequality. The source takes the square root of the squared
distance and compares it with the threshold; both sides being
nonnegative there, this is embedded as the equivalent squared
comparison so that it stays decidable (the equivalence with the
square-root form is proved below). -/
def Coin.check_collision (c : Coin) (b : Bird) : Bool :=
  decide (coinDist2 c b < ((coinBound c b : ℤ) : ℚ)^2)

/-- The state a Shop purchase click acts on: the coin balance held by
the Shop, its persisted copy, and the bird (owner of the skin state). -/
structure ShopState where
  coins : ℤ
  persistedCoins : ℤ
  bird : Bird
  deriving Repr, DecidableEq

/-- The purchase transaction of Shop.handle_click for a clicked skin
button, lines 555-560: the elif branch runs only when the skin is not
owned and the price is affordable, then Bird.purchase_skin decides; on
success the price is deducted, the skin equipped via Bird.set_skin and
the balance persisted via save_coins. A click on an owned skin takes
the equip-only branch and never reaches this transaction, so as a
purchase an owned skin fails through Bird.purchase_skin; an unknown id
has no button and changes nothing. -/
def purchaseAndEquip (s : String) (st : ShopState) : ShopState × Bool :=
  match SKINS_price s with
  | none => (st, false)
  | some price =>
    if price ≤ st.coins then
      let (b1, ok) := st.bird.purchase_skin s st.coins
      if ok then
        let coins1 := st.coins - price
        ({ coins := coins1, persistedCoins := coins1, bird := b1.set_skin s }, true)
      else (st, false)
    else (st, false)

/-- State of the Game object (simulation-relevant fields of
Game.__init__ plus the Shop coin balance it owns and the persisted
copies of the two stored integers). shopActive is Shop.active. -/
structure GameState where
  bird : Bird
  pipes : List Pipe
  coinItems : List Coin
  score : ℤ
  high_score : ℤ
  last_pipe : ℤ
  last_coin : ℤ
  game_over : Bool
  shopActive : Bool
  shopCoins : ℤ
  persistedCoins : ℤ
  persistedHigh : ℤ
  deriving Repr, DecidableEq

/-- Game.save_high_score: when the current score strictly exceeds the
stored high score, update it and persist it; otherwise do nothing. -/
def saveHighScore (st : GameState) : GameState :=
  if st.score > st.high_score then
    { st with high_score := st.score, persistedHigh := st.score }
  else st

/-- Game.save_coins: persist the current Shop balance. -/
def saveCoins (st : GameState) : GameState :=
  { st with persistedCoins := st.shopCoins }

/-- Step 1 of Game.update: integrate the bird physics. -/
def birdPhase (st : GameState) : GameState :=
  { st with bird := st.bird.update }

/-- Step 2 of Game.update, lines 652-656: if the bird touches the top
(y <= 0) or the ground (y + size >= WINDOW_HEIGHT), set game_over and
finalize the high score. -/
def boundaryPhase (st : GameState) : GameState :=
  if st.bird.y ≤ 0 ∨ st.bird.y + (st.bird.size : ℚ) ≥ (WINDOW_HEIGHT : ℚ) then
    saveHighScore { st with game_over := true }
  else st

/-- Step 3 of Game.update: when more than PIPE_FREQUENCY ms have passed
since the last pipe, append a new pipe (gap drawn as input) and reset
the timer to now. -/
def pipeSpawnPhase (now gap : ℤ) (st : GameState) : GameState :=
  if now - st.last_pipe > PIPE_FREQUENCY then
    { st with pipes := st.pipes ++ [Pipe.init gap], last_pipe := now }
  else st

/-- The rightmost-pipe scan of Game.update: fold over the live pipes
keeping the first pipe of maximal x. -/
def rightmostPipe (ps : List Pipe) : Option Pipe :=
  ps.foldl
    (fun acc p => match acc with
      | none => some p
      | some r => if p.x > r.x then some p else some r)
    none

/-- Step 4 of Game.update: when more than COIN_FREQUENCY ms have passed
since the last coin, create one. If a rightmost pipe exists with
x < WINDOW_WIDTH - 100, place the coin 50 past that pipe, vertically at
its gap centre plus a random jitter in [-PIPE_GAP//4, PIPE_GAP//4];
otherwise place it at the right edge at a random y in the middle third
of the screen. jitter, safeY, special and t0 are the random draws. -/
def coinSpawnPhase (now jitter safeY : ℤ) (special : Bool) (t0 : ℚ) (st : GameState) :
    GameState :=
  if now - st.last_coin > COIN_FREQUENCY then
    let pos : ℤ × ℚ :=
      match rightmostPipe st.pipes with
      | some r =>
        if r.x < WINDOW_WIDTH - 100 then (r.x + r.width + 50, ((r.gap_y + jitter : ℤ) : ℚ))
        else (WINDOW_WIDTH, (safeY : ℚ))
      | none => (WINDOW_WIDTH, (safeY : ℚ))
    { st with coinItems := st.coinItems ++ [Coin.init pos.1 pos.2 special t0]
              last_coin := now }
  else st

/-- The body of the pipe loop of Game.update, lines 687-695, for one
pipe: advance it; if it stays in range keep it, award the pass score
once (when not yet passed and now behind the bird x), and on collision
with the bird set game_over and finalize the high score; a pipe out of
range is dropped. -/
def pipeStep (st : GameState) (p : Pipe) : GameState :=
  let (p1, alive) := p.update
  if alive then
    let scored : Pipe × ℤ :=
      if ¬p1.passed ∧ p1.x < st.bird.x then ({ p1 with passed := true }, st.score + 1)
      else (p1, st.score)
    let st1 := { st with pipes := st.pipes ++ [scored.1], score := scored.2 }
    if scored.1.check_collision st1.bird then
      saveHighScore { st1 with game_over := true }
    else st1
  else st

/-- Step 5 of Game.update: run the pipe loop over the live pipes,
rebuilding the surviving list. -/
def pipePhase (st : GameState) : GameState :=
  st.pipes.foldl pipeStep { st with pipes := [] }

/-- The body of the coin loop of Game.update, lines 700-708, for one
coin: an uncollected coin is advanced; if it stays on screen and hits
the bird its value is added to the Shop balance and the new balance is
persisted at once (the coin, marked collected in the source, is not
kept in the surviving list); on a miss it is kept; a coin off screen or
already collected is dropped. -/
def coinStep (sinQ : ℚ → ℚ) (st : GameState) (c : Coin) : GameState :=
  if ¬c.collected then
    let (c1, alive) := Coin.update sinQ c
    if alive then
      if c1.check_collision st.bird then
        saveCoins { st with shopCoins := st.shopCoins + c1.value }
      else { st with coinItems := st.coinItems ++ [c1] }
    else st
  else st

/-- Step 6 of Game.update: run the coin loop over the live coins,
rebuilding the surviving list. -/
def coinPhase (sinQ : ℚ → ℚ) (st : GameState) : GameState :=
  st.coinItems.foldl (coinStep sinQ) { st with coinItems := [] }

/-- Game.update for one tick: when the game is over or the shop is
open, nothing happens; otherwise the six steps run in order, each on
the state the previous one produced, with no early exit. now is the
millisecond clock reading and gap, jitter, safeY, special, t0 the
random draws of this tick. -/
def gameUpdate (sinQ : ℚ → ℚ) (now gap jitter safeY : ℤ) (special : Bool) (t0 : ℚ)
    (st : GameState) : GameState :=
  if ¬st.game_over ∧ ¬st.shopActive then
    coinPhase sinQ (pipePhase (coinSpawnPhase now jitter safeY special t0
      (pipeSpawnPhase now gap (boundaryPhase (birdPhase st)))))
  else st

/-- Modelled from the spec words of section 4.1: if the current
velocity is positive apply min(velocity * ACCEL + GRAVITY,
MAX_VELOCITY), otherwise velocity + GRAVITY. Used only to compare the
source integrate step against the spec formula. -/
def specIntegrateVelocity (v : ℚ) : ℚ :=
  if v > 0 then min (v * ACCELERATION + GRAVITY) MAX_VELOCITY
  else v + GRAVITY

/-- A bird as built when every store read returns its default: the
scenario bird of section 8 once its y is at 300. -/
def birdDefault : Bird :=
  { x := 133, y := 300, velocity := 0, size := 30, angle := 0
    current_skin := "default", owned_skins := ["default"] }

/-- C5: the integrate step computes exactly the spec formula for the
new velocity, adds that new velocity to y, and on the scenario input
(velocity 0, y 300) produces velocity 1/2 and y 601/2, velocity 0
taking the plain-gravity branch. -/
theorem bird_integrate_formula :
    (∀ b : Bird, (b.update).velocity = specIntegrateVelocity b.velocity ∧
      (b.update).y = b.y + specIntegrateVelocity b.velocity) ∧
    (birdDefault.update).velocity = 1/2 ∧ (birdDefault.update).y = 601/2 := by
  refine ⟨fun b => ⟨rfl, rfl⟩, ?_, ?_⟩ <;>
    norm_num [Bird.update, birdDefault, GRAVITY, ACCELERATION, MAX_VELOCITY]

/-- C6: after one integrate step the velocity is at most MAX_VELOCITY,
for every starting velocity: the falling branch is capped by the min,
and the non-falling branch starts at most at 0 and adds GRAVITY. -/
theorem bird_velocity_le_max : ∀ b : Bird, (b.update).velocity ≤ MAX_VELOCITY := by
  intro b
  show (if b.velocity > 0
      then min (b.velocity * ACCELERATION + GRAVITY) MAX_VELOCITY
      else b.velocity + GRAVITY) ≤ MAX_VELOCITY
  split
  · exact min_le_right _ _
  · rename_i h
    push_neg at h
    rw [GRAVITY, MAX_VELOCITY]
    linarith

/-- The two avatar operations gameplay applies after construction: the
flap impulse and the per-tick integrate step. -/
inductive BirdOp
  | impulse
  | integrate
  deriving Repr, DecidableEq

/-- Apply one avatar operation. -/
def applyBirdOp (b : Bird) : BirdOp → Bird
  | .impulse => b.flap
  | .integrate => b.update

/-- Apply a sequence of avatar operations in order. -/
def applyBirdOps (b : Bird) : List BirdOp → Bird
  | [] => b
  | op :: ops => applyBirdOps (applyBirdOp b op) ops

theorem applyBirdOp_angle_bounded (b : Bird) (op : BirdOp)
    (h1 : -70 ≤ b.angle) (h2 : b.angle ≤ 20) :
    -70 ≤ (applyBirdOp b op).angle ∧ (applyBirdOp b op).angle ≤ 20 := by
  cases op with
  | impulse => exact ⟨by norm_num [applyBirdOp, Bird.flap], by norm_num [applyBirdOp, Bird.flap]⟩
  | integrate =>
    show -70 ≤ (b.update).angle ∧ (b.update).angle ≤ 20
    have heq : (b.update).angle =
        (if (b.update).velocity < 0 then (20 : ℚ) else max (-70) (b.angle - 4)) := rfl
    rw [heq]
    by_cases hv : (b.update).velocity < 0
    · rw [if_pos hv]; norm_num
    · rw [if_neg hv]
      exact ⟨le_max_left _ _, max_le (by norm_num) (by linarith)⟩

theorem applyBirdOps_angle_bounded (ops : List BirdOp) : ∀ b : Bird,
    -70 ≤ b.angle → b.angle ≤ 20 →
    -70 ≤ (applyBirdOps b ops).angle ∧ (applyBirdOps b ops).angle ≤ 20 := by
  induction ops with
  | nil => exact fun b h1 h2 => ⟨h1, h2⟩
  | cons op ops ih =>
    intro b h1 h2
    have h := applyBirdOp_angle_bounded b op h1 h2
    exact ih (applyBirdOp b op) h.1 h.2

theorem load_owned_skins_angle (d : Option (List String)) (b : Bird) :
    (b.load_owned_skins d).angle = b.angle := by
  cases d <;> rfl

theorem load_current_skin_angle (d : Option (Option String)) (b : Bird) :
    (b.load_current_skin d).angle = b.angle := by
  cases d with
  | none => rfl
  | some s =>
    cases s with
    | none => rfl
    | some v =>
      simp only [Bird.load_current_skin]
      split <;> rfl

theorem bird_init_angle (dbSkins : Option (List String))
    (dbSkin : Option (Option String)) : (Bird.init dbSkins dbSkin).angle = 0 := by
  show ((_ : Bird).load_current_skin dbSkin).angle = 0
  rw [load_current_skin_angle, load_owned_skins_angle]

/-- C10: starting from a freshly constructed bird (angle 0, whatever
the store returned), any sequence of impulse and integrate operations
keeps the rotation angle inside the closed interval [-70, 20]. -/
theorem bird_angle_in_range (dbSkins : Option (List String))
    (dbSkin : Option (Option String)) (ops : List BirdOp) :
    -70 ≤ (applyBirdOps (Bird.init dbSkins dbSkin) ops).angle ∧
      (applyBirdOps (Bird.init dbSkins dbSkin) ops).angle ≤ 20 := by
  have h := bird_init_angle dbSkins dbSkin
  exact applyBirdOps_angle_bounded ops _ (by rw [h]; norm_num) (by rw [h]; norm_num)

/-- The ownership invariant of the skin state: the default skin is
always owned and the equipped skin is always owned. -/
def SkinInv (b : Bird) : Prop :=
  "default" ∈ b.owned_skins ∧ b.current_skin ∈ b.owned_skins

/-- C9: the ownership invariant holds after construction and loading,
whatever the store returned, and is preserved by equipping
(Bird.set_skin, which only accepts catalog-known owned skins) and by
purchasing (Bird.purchase_skin, which only adds to the owned set). -/
theorem load_current_skin_inv (d : Option (Option String)) (b : Bird)
    (h : SkinInv b) : SkinInv (b.load_current_skin d) := by
  cases d with
  | none => exact ⟨h.1, h.1⟩
  | some s =>
    cases s with
    | none => exact h
    | some v =>
      simp only [Bird.load_current_skin]
      split
      · rename_i hc
        exact ⟨h.1, hc.2⟩
      · exact h

theorem load_owned_skins_from_default_inv (d : Option (List String)) (b : Bird)
    (h : b.current_skin = "default") : SkinInv (b.load_owned_skins d) := by
  cases d with
  | none => exact ⟨List.mem_singleton.mpr rfl, by rw [Bird.load_owned_skins, h]; exact List.mem_singleton.mpr rfl⟩
  | some l =>
    refine ⟨List.mem_insert_self _ _, ?_⟩
    show b.current_skin ∈ List.insert "default" _
    rw [h]
    exact List.mem_insert_self _ _

theorem skin_invariant :
    (∀ dbSkins dbSkin, SkinInv (Bird.init dbSkins dbSkin)) ∧
    (∀ (b : Bird) (s : String), SkinInv b → SkinInv (b.set_skin s)) ∧
    (∀ (b : Bird) (s : String) (coins : ℤ), SkinInv b →
      SkinInv (b.purchase_skin s coins).1) := by
  refine ⟨?_, ?_, ?_⟩
  · intro dbSkins dbSkin
    exact load_current_skin_inv dbSkin _
      (load_owned_skins_from_default_inv dbSkins _ rfl)
  · intro b s h
    simp only [Bird.set_skin]
    split
    · rename_i hc
      exact ⟨h.1, hc.2⟩
    · exact h
  · intro b s coins h
    simp only [Bird.purchase_skin]
    cases hp : SKINS_price s with
    | none => exact h
    | some price =>
      simp only
      split
      · exact ⟨List.mem_insert_of_mem h.1, List.mem_insert_of_mem h.2⟩
      · exact h

/-- Closed witness for C9 at concrete inputs: a fresh bird loaded from
a store holding owned skins blue_jay only and selected skin cardinal
still satisfies the invariant, and so does a purchase of cardinal with
balance 100 on top of it. -/
theorem skin_invariant_witness :
    SkinInv (Bird.init (some ["blue_jay"]) (some (some "cardinal"))) ∧
    SkinInv ((Bird.init (some ["blue_jay"]) (some (some "cardinal"))).purchase_skin
      "cardinal" 100).1 := by
  have h1 := skin_invariant.1 (some ["blue_jay"]) (some (some "cardinal"))
  exact ⟨h1, skin_invariant.2.2 _ "cardinal" 100 h1⟩

/-- C2: the purchase transaction is atomic. Unknown id, already owned
id, or a balance below the price leave the balance, its persisted copy,
the owned set and the equipped skin unchanged and report failure; an
unowned catalog id with sufficient balance reports success, deducts
exactly the price, persists the new balance, adds the skin to the owned
set and equips it. -/
theorem purchase_and_equip_atomic :
    (∀ (s : String) (st : ShopState),
      (SKINS_price s = none ∨ s ∈ st.bird.owned_skins ∨
        (∃ p, SKINS_price s = some p ∧ st.coins < p)) →
      purchaseAndEquip s st = (st, false)) ∧
    (∀ (s : String) (st : ShopState) (p : ℤ),
      SKINS_price s = some p → s ∉ st.bird.owned_skins → p ≤ st.coins →
      (purchaseAndEquip s st).2 = true ∧
      (purchaseAndEquip s st).1.coins = st.coins - p ∧
      (purchaseAndEquip s st).1.persistedCoins = st.coins - p ∧
      s ∈ (purchaseAndEquip s st).1.bird.owned_skins ∧
      (purchaseAndEquip s st).1.bird.current_skin = s) := by
  constructor
  · intro s st h
    rcases h with h | h | ⟨p, hp, hlt⟩
    · simp [purchaseAndEquip, h]
    · simp only [purchaseAndEquip]
      cases hp : SKINS_price s with
      | none => rfl
      | some p =>
        simp only
        split
        · simp [Bird.purchase_skin, hp, h]
        · rfl
    · simp only [purchaseAndEquip, hp]
      rw [if_neg (by exact not_le.mpr hlt)]
  · intro s st p hp hown hle
    have hbuy : st.bird.purchase_skin s st.coins =
        ({ st.bird with owned_skins := st.bird.owned_skins.insert s }, true) := by
      simp [Bird.purchase_skin, hp, hown, hle, ge_iff_le]
    have hres : purchaseAndEquip s st =
        ({ coins := st.coins - p, persistedCoins := st.coins - p,
           bird := Bird.set_skin s
             { st.bird with owned_skins := st.bird.owned_skins.insert s } }, true) := by
      simp [purchaseAndEquip, hp, hle, hbuy]
    have hset : Bird.set_skin s
        { st.bird with owned_skins := st.bird.owned_skins.insert s } =
        { st.bird with owned_skins := st.bird.owned_skins.insert s, current_skin := s } := by
      rw [Bird.set_skin, if_pos]
      exact ⟨by rw [hp]; rfl, List.mem_insert_self _ _⟩
    rw [hres, hset]
    exact ⟨rfl, rfl, rfl, List.mem_insert_self _ _, rfl⟩

/-- A shop holding 100 coins over a freshly defaulted bird, for the C2
scenario. -/
def shopEx : ShopState :=
  { coins := 100, persistedCoins := 100, bird := birdDefault }

/-- Closed witness for C2, scenario 4 of the spec: with balance 100,
buying blue_jay (price 50) succeeds, leaves balance 50 (also
persisted), and blue_jay is owned and equipped afterwards. -/
theorem purchase_and_equip_atomic_witness :
    (purchaseAndEquip "blue_jay" shopEx).2 = true ∧
    (purchaseAndEquip "blue_jay" shopEx).1.coins = 50 ∧
    (purchaseAndEquip "blue_jay" shopEx).1.persistedCoins = 50 ∧
    "blue_jay" ∈ (purchaseAndEquip "blue_jay" shopEx).1.bird.owned_skins ∧
    (purchaseAndEquip "blue_jay" shopEx).1.bird.current_skin = "blue_jay" := by
  have h := purchase_and_equip_atomic.2 "blue_jay" shopEx 50 rfl
    (by simp [shopEx, birdDefault]) (by norm_num [shopEx])
  refine ⟨h.1, ?_, ?_, h.2.2.2.1, h.2.2.2.2⟩
  · rw [h.2.1]; norm_num [shopEx]
  · rw [h.2.2.1]; norm_num [shopEx]

/-- C8: the collection check is true exactly when the Euclidean
distance between the bird centre and the coin centre is strictly below
radius + size // 2 (for the positive threshold the game always has), so
a distance exactly on the threshold is not collected; and a coin
created with the special draw is worth 10 while a normal one is worth
5. -/
theorem coin_collision_spec :
    (∀ (c : Coin) (b : Bird), (0:ℤ) < coinBound c b →
      (c.check_collision b = true ↔
        Real.sqrt ((coinDist2 c b : ℚ) : ℝ) < ((coinBound c b : ℤ) : ℝ))) ∧
    (∀ (c : Coin) (b : Bird),
      coinDist2 c b = ((coinBound c b : ℤ) : ℚ)^2 → c.check_collision b = false) ∧
    (∀ (x : ℤ) (y : ℚ) (special : Bool) (t0 : ℚ),
      (Coin.init x y special t0).value = (if special then 10 else 5) ∧
      (Coin.init x y special t0).is_special = special) := by
  refine ⟨?_, ?_, fun x y special t0 => ⟨rfl, rfl⟩⟩
  · intro c b h
    have hb : (0:ℝ) < ((coinBound c b : ℤ) : ℝ) := by exact_mod_cast h
    rw [Coin.check_collision, decide_eq_true_eq, Real.sqrt_lt' hb]
    constructor
    · intro hq
      exact_mod_cast hq
    · intro hr
      exact_mod_cast hr
  · intro c b h
    rw [Coin.check_collision, h]
    exact decide_eq_false (lt_irrefl _)

/-- The boundary coin of scenario 6: its centre sits exactly 25 from
the default bird centre (148, 315). -/
def coinOnBoundary : Coin := Coin.init 173 315 false 0

/-- Closed witness for C8: for the boundary coin the threshold is the
positive 25, the squared distance equals the squared threshold, the
collection check agrees with the square-root comparison, and the coin
is not collected. -/
theorem coin_collision_spec_witness :
    (0:ℤ) < coinBound coinOnBoundary birdDefault ∧
    coinDist2 coinOnBoundary birdDefault
      = ((coinBound coinOnBoundary birdDefault : ℤ) : ℚ)^2 ∧
    (coinOnBoundary.check_collision birdDefault = true ↔
      Real.sqrt ((coinDist2 coinOnBoundary birdDefault : ℚ) : ℝ)
        < ((coinBound coinOnBoundary birdDefault : ℤ) : ℝ)) ∧
    coinOnBoundary.check_collision birdDefault = false := by
  have h0 : (0:ℤ) < coinBound coinOnBoundary birdDefault := by
    norm_num [coinBound, coinOnBoundary, Coin.init, birdDefault]
  have he : coinDist2 coinOnBoundary birdDefault
      = ((coinBound coinOnBoundary birdDefault : ℤ) : ℚ)^2 := by
    norm_num [coinDist2, coinBound, coinOnBoundary, Coin.init, birdDefault]
  exact ⟨h0, he, coin_collision_spec.1 _ _ h0, coin_collision_spec.2.1 _ _ he⟩

/-- The per-tick history of one pipe inside the pipe loop of
Game.update: the pipe itself, whether it is still live (a pipe whose
update returned false is dropped from the live list and never processed
again), and the score. -/
structure PipeScoreState where
  pipe : Pipe
  alive : Bool
  score : ℤ
  deriving Repr, DecidableEq

/-- One tick of the pipe loop of Game.update, lines 687-692, restricted
to a single pipe and the score (the collision branch of the loop does
not touch the score or the passed flag): a dead pipe is left alone; a
live pipe advances; if still in range and not yet passed and now behind
the bird x, the score goes up by one and the passed flag is set. -/
def pipeScoreTick (birdX : ℤ) (st : PipeScoreState) : PipeScoreState :=
  if st.alive then
    let (p1, alive) := st.pipe.update
    if alive then
      if ¬p1.passed ∧ p1.x < birdX then
        { pipe := { p1 with passed := true }, alive := true, score := st.score + 1 }
      else { pipe := p1, alive := true, score := st.score }
    else { pipe := p1, alive := false, score := st.score }
  else st

theorem pipeScoreTick_of_passed (birdX : ℤ) (st : PipeScoreState)
    (h : st.pipe.passed = true) :
    (pipeScoreTick birdX st).pipe.passed = true ∧
      (pipeScoreTick birdX st).score = st.score := by
  simp only [pipeScoreTick, Pipe.update]
  repeat' split
  all_goals simp_all

theorem pipeScoreTick_of_not_passed (birdX : ℤ) (st : PipeScoreState)
    (h : st.pipe.passed = false) :
    (pipeScoreTick birdX st).score =
      st.score + (if (pipeScoreTick birdX st).pipe.passed then 1 else 0) := by
  simp only [pipeScoreTick, Pipe.update]
  repeat' split
  all_goals simp_all

theorem pipeScoreTick_iter_passed (birdX : ℤ) (n : ℕ) : ∀ st : PipeScoreState,
    st.pipe.passed = true → ((pipeScoreTick birdX)^[n] st).pipe.passed = true ∧
      ((pipeScoreTick birdX)^[n] st).score = st.score := by
  induction n with
  | zero => exact fun st h => ⟨h, rfl⟩
  | succ n ih =>
    intro st h
    rw [Function.iterate_succ_apply]
    have h1 := pipeScoreTick_of_passed birdX st h
    have h2 := ih (pipeScoreTick birdX st) h1.1
    exact ⟨h2.1, by rw [h2.2, h1.2]⟩

/-- C3: over any number of ticks of the pipe loop, a pipe contributes
exactly one point in total when its passed flag got set and none
otherwise, however many ticks the bird x stays ahead of the pipe x: the
final score is the initial score plus one exactly when the final passed
flag is set and the initial one was not, so a pipe is never awarded a
second time. -/
theorem pipe_scored_exactly_once (birdX : ℤ) (n : ℕ) : ∀ st : PipeScoreState,
    ((pipeScoreTick birdX)^[n] st).score =
      st.score + (if ((pipeScoreTick birdX)^[n] st).pipe.passed ∧ ¬st.pipe.passed
        then 1 else 0) := by
  induction n with
  | zero =>
    intro st
    simp
  | succ n ih =>
    intro st
    rw [Function.iterate_succ_apply]
    cases hp : st.pipe.passed with
    | true =>
      have h1 := pipeScoreTick_of_passed birdX st hp
      have h2 := pipeScoreTick_iter_passed birdX n _ h1.1
      rw [h2.2, h1.2]
      simp
    | false =>
      cases hq : (pipeScoreTick birdX st).pipe.passed with
      | true =>
        have h2 := pipeScoreTick_iter_passed birdX n _ hq
        have h3 := pipeScoreTick_of_not_passed birdX st hp
        rw [h2.2, h3, hq]
        simp [h2.1]
      | false =>
        have h3 := pipeScoreTick_of_not_passed birdX st hp
        rw [ih (pipeScoreTick birdX st), h3, hq]
        simp

theorem saveHighScore_game_over (st : GameState) :
    (saveHighScore st).game_over = st.game_over := by
  rw [saveHighScore]; split <;> rfl

theorem saveCoins_game_over (st : GameState) :
    (saveCoins st).game_over = st.game_over := rfl

theorem pipeSpawnPhase_game_over (now gap : ℤ) (st : GameState) :
    (pipeSpawnPhase now gap st).game_over = st.game_over := by
  rw [pipeSpawnPhase]; split <;> rfl

theorem coinSpawnPhase_game_over (now jitter safeY : ℤ) (special : Bool) (t0 : ℚ)
    (st : GameState) :
    (coinSpawnPhase now jitter safeY special t0 st).game_over = st.game_over := by
  rw [coinSpawnPhase]; split <;> rfl

theorem pipeStep_game_over (st : GameState) (p : Pipe) (h : st.game_over = true) :
    (pipeStep st p).game_over = true := by
  simp only [pipeStep]
  repeat' split
  all_goals simp_all [saveHighScore_game_over]

theorem foldl_pipeStep_game_over (l : List Pipe) : ∀ st : GameState,
    st.game_over = true → (l.foldl pipeStep st).game_over = true := by
  induction l with
  | nil => exact fun st h => h
  | cons p l ih => exact fun st h => ih (pipeStep st p) (pipeStep_game_over st p h)

theorem pipePhase_game_over (st : GameState) (h : st.game_over = true) :
    (pipePhase st).game_over = true :=
  foldl_pipeStep_game_over st.pipes { st with pipes := [] } h

theorem coinStep_game_over (sinQ : ℚ → ℚ) (st : GameState) (c : Coin) :
    (coinStep sinQ st c).game_over = st.game_over := by
  simp only [coinStep]
  repeat' split
  all_goals rfl

theorem coinPhase_foldl_game_over (sinQ : ℚ → ℚ) (l : List Coin) : ∀ st : GameState,
    (l.foldl (coinStep sinQ) st).game_over = st.game_over := by
  induction l with
  | nil => exact fun st => rfl
  | cons c l ih =>
    intro st
    rw [List.foldl_cons, ih (coinStep sinQ st c), coinStep_game_over]

theorem coinPhase_game_over (sinQ : ℚ → ℚ) (st : GameState) :
    (coinPhase sinQ st).game_over = st.game_over :=
  coinPhase_foldl_game_over sinQ st.coinItems { st with pipes := st.pipes, coinItems := [] }

/-- C4: inside the coin loop of one tick, when an uncollected coin
survives its advance and hits the bird (exactly the condition under
which the source sets its collected flag), the balance the Shop holds
goes up by exactly that coin value, the persisted balance is set to the
new balance in the same step, and every later coin of the tick is
processed from that already-persisted state. -/
theorem coin_collect_persists_before_next :
    ∀ (sinQ : ℚ → ℚ) (st : GameState) (c : Coin) (rest : List Coin),
      c.collected = false →
      (Coin.update sinQ c).2 = true →
      (Coin.update sinQ c).1.check_collision st.bird = true →
      (Coin.update sinQ c).1.value = c.value ∧
      (coinStep sinQ st c).shopCoins = st.shopCoins + c.value ∧
      (coinStep sinQ st c).persistedCoins = st.shopCoins + c.value ∧
      (c :: rest).foldl (coinStep sinQ) st =
        rest.foldl (coinStep sinQ)
          (saveCoins { st with shopCoins := st.shopCoins + c.value }) := by
  intro sinQ st c rest h1 h2 h3
  have hv : (Coin.update sinQ c).1.value = c.value := rfl
  have h4 : coinStep sinQ st c = saveCoins { st with shopCoins := st.shopCoins + c.value } := by
    cases hu : Coin.update sinQ c with
    | mk c1 alive =>
      rw [hu] at h2 h3
      rw [← hv, hu]
      simp only [coinStep, hu, h1, h2, h3]
      simp
  refine ⟨hv, ?_, ?_, ?_⟩
  · rw [h4]; rfl
  · rw [h4]; rfl
  · rw [List.foldl_cons, h4]

/-- A constant zero stand-in for the sine parameter, used to evaluate
the model at concrete inputs. -/
def zeroSin : ℚ → ℚ := fun _ => 0

/-- A running game state over the default bird with empty entity lists,
zero score and balances, and both spawn timers read at 0. -/
def gameBase : GameState :=
  { bird := birdDefault, pipes := [], coinItems := [], score := 0, high_score := 0,
    last_pipe := 0, last_coin := 0, game_over := false, shopActive := false,
    shopCoins := 0, persistedCoins := 0, persistedHigh := 0 }

/-- A normal coin that will sit exactly on the default bird centre
after one advance under the zero sine. -/
def exCoinC4 : Coin := Coin.init 151 315 false 0

/-- Closed witness for C4: the concrete coin is uncollected, survives
its advance, hits the default bird, and the coin step leaves balance
and persisted balance both at the old balance plus its value 5. -/
theorem coin_collect_persists_witness :
    exCoinC4.collected = false ∧
    (Coin.update zeroSin exCoinC4).2 = true ∧
    (Coin.update zeroSin exCoinC4).1.check_collision gameBase.bird = true ∧
    (coinStep zeroSin gameBase exCoinC4).shopCoins = gameBase.shopCoins + exCoinC4.value ∧
    (coinStep zeroSin gameBase exCoinC4).persistedCoins = gameBase.shopCoins + exCoinC4.value := by
  have h1 : exCoinC4.collected = false := rfl
  have h2 : (Coin.update zeroSin exCoinC4).2 = true := by
    norm_num [Coin.update, Coin.init, exCoinC4, PIPE_SPEED]
  have h3 : (Coin.update zeroSin exCoinC4).1.check_collision gameBase.bird = true := by
    norm_num [Coin.check_collision, coinDist2, coinBound, Coin.update, Coin.init,
      exCoinC4, zeroSin, gameBase, birdDefault, PIPE_SPEED]
  have h := coin_collect_persists_before_next zeroSin gameBase exCoinC4 [] h1 h2 h3
  exact ⟨h1, h2, h3, h.2.1, h.2.2.1⟩

/-- C7: while running, the boundary check turns game_over on exactly
when the top edge has reached 0 (equality included) or the bottom edge
has reached the screen height; on that trigger the stored high score is
set and persisted to the current score when the score strictly exceeds
it and both are left untouched otherwise; and a tick whose integrated
bird position is out of bounds ends with game_over on (later steps of
the tick never turn it off again). -/
theorem boundary_game_over_highscore :
    (∀ st : GameState, st.game_over = false →
      ((boundaryPhase st).game_over = true ↔
        (st.bird.y ≤ 0 ∨ st.bird.y + (st.bird.size : ℚ) ≥ (WINDOW_HEIGHT : ℚ)))) ∧
    (∀ st : GameState,
      (st.bird.y ≤ 0 ∨ st.bird.y + (st.bird.size : ℚ) ≥ (WINDOW_HEIGHT : ℚ)) →
      (if st.score > st.high_score
        then (boundaryPhase st).high_score = st.score ∧
          (boundaryPhase st).persistedHigh = st.score
        else (boundaryPhase st).high_score = st.high_score ∧
          (boundaryPhase st).persistedHigh = st.persistedHigh)) ∧
    (∀ (sinQ : ℚ → ℚ) (now gap jitter safeY : ℤ) (special : Bool) (t0 : ℚ)
        (st : GameState),
      st.game_over = false → st.shopActive = false →
      ((st.bird.update).y ≤ 0 ∨
        (st.bird.update).y + ((st.bird.update).size : ℚ) ≥ (WINDOW_HEIGHT : ℚ)) →
      (gameUpdate sinQ now gap jitter safeY special t0 st).game_over = true) := by
  refine ⟨?_, ?_, ?_⟩
  · intro st h
    rw [boundaryPhase]
    split
    · rename_i hc
      simp [saveHighScore_game_over, hc]
    · rename_i hc
      rw [h]
      simp only [Bool.false_eq_true, false_iff]
      exact hc
  · intro st htr
    rw [boundaryPhase, if_pos htr]
    split
    · rename_i hs
      rw [saveHighScore, if_pos hs]
      exact ⟨rfl, rfl⟩
    · rename_i hs
      rw [saveHighScore, if_neg hs]
      exact ⟨rfl, rfl⟩
  · intro sinQ now gap jitter safeY special t0 st h0 hs htr
    rw [gameUpdate, if_pos ⟨by rw [h0]; exact Bool.false_ne_true, by rw [hs]; exact Bool.false_ne_true⟩]
    rw [coinPhase_game_over]
    apply pipePhase_game_over
    rw [coinSpawnPhase_game_over, pipeSpawnPhase_game_over]
    show (boundaryPhase (birdPhase st)).game_over = true
    have htr2 : (birdPhase st).bird.y ≤ 0 ∨
        (birdPhase st).bird.y + ((birdPhase st).bird.size : ℚ) ≥ (WINDOW_HEIGHT : ℚ) := htr
    rw [boundaryPhase, if_pos htr2, saveHighScore_game_over]

/-- The scenario 5 state: the bird sits at y = -1/2 with zero velocity,
so one integrate lands it at y = 0 exactly; the session score 3 exceeds
the stored high score 1. -/
def exGameC7 : GameState :=
  { gameBase with bird := { birdDefault with y := -1/2 }, score := 3, high_score := 1 }

/-- Closed witness for C7: on the state of scenario 5 the boundary
check fires on exact equality y = 0, the high score 3 is stored and
persisted (3 exceeds the stored 1), and the whole tick ends in
game over. -/
theorem boundary_game_over_highscore_witness :
    ((boundaryPhase (birdPhase exGameC7)).game_over = true) ∧
    (boundaryPhase (birdPhase exGameC7)).high_score = 3 ∧
    (boundaryPhase (birdPhase exGameC7)).persistedHigh = 3 ∧
    (gameUpdate zeroSin 0 300 0 300 false 0 exGameC7).game_over = true := by
  have htr : (birdPhase exGameC7).bird.y ≤ 0 ∨
      (birdPhase exGameC7).bird.y + ((birdPhase exGameC7).bird.size : ℚ)
        ≥ (WINDOW_HEIGHT : ℚ) := by
    left
    norm_num [birdPhase, Bird.update, exGameC7, gameBase, birdDefault, GRAVITY]
  have h1 := (boundary_game_over_highscore.1 (birdPhase exGameC7) rfl).mpr htr
  have h2 := boundary_game_over_highscore.2.1 (birdPhase exGameC7) htr
  rw [if_pos (by norm_num [birdPhase, exGameC7, gameBase])] at h2
  have h3 := boundary_game_over_highscore.2.2 zeroSin 0 300 0 300 false 0 exGameC7
    rfl rfl htr
  exact ⟨h1, h2.1, h2.2, h3⟩

/-- A live pipe already behind-to-be of the bird: after one advance it
sits at x = 47, strictly left of the bird x = 133 and clear of its box. -/
def pipeC1 : Pipe := { gap_y := 300, x := 50, width := 80, passed := false }

/-- A running state about to hit the top boundary (one integrate takes
the bird to y = -31/2) while the pipe pipeC1 is still unpassed. -/
def exStC1 : GameState :=
  { gameBase with bird := { birdDefault with y := -10, velocity := -6 }
                  pipes := [pipeC1] }

/-- C1 counterexample: on this concrete tick the boundary check fires
and turns the run into game over, yet the remaining steps of the very
same tick are not skipped: the pipe loop still advances the obstacle
from x = 50 to x = 47, awards the pass point and sets its passed flag,
so the score moves from 0 to 1 after the boundary-triggered transition. -/
theorem boundary_skip_counterexample :
    exStC1.game_over = false ∧
    (boundaryPhase (birdPhase exStC1)).game_over = true ∧
    exStC1.score = 0 ∧
    (gameUpdate zeroSin 0 300 0 300 false 0 exStC1).score = 1 ∧
    (gameUpdate zeroSin 0 300 0 300 false 0 exStC1).pipes =
      [{ gap_y := 300, x := 47, width := 80, passed := true }] := by
  refine ⟨rfl, ?_, rfl, ?_, ?_⟩
  · have htr : (birdPhase exStC1).bird.y ≤ 0 ∨
        (birdPhase exStC1).bird.y + ((birdPhase exStC1).bird.size : ℚ)
          ≥ (WINDOW_HEIGHT : ℚ) := by
      left
      norm_num [birdPhase, Bird.update, exStC1, gameBase, birdDefault, GRAVITY]
    rw [boundaryPhase, if_pos htr, saveHighScore_game_over]
  all_goals
    norm_num [gameUpdate, coinPhase, pipePhase, coinSpawnPhase, pipeSpawnPhase,
      boundaryPhase, birdPhase, Bird.update, saveHighScore, pipeStep, Pipe.update,
      Pipe.check_collision, rectsCollide, coinStep, exStC1, gameBase, birdDefault,
      pipeC1, GRAVITY, ACCELERATION, MAX_VELOCITY, PIPE_SPEED, PIPE_FREQUENCY,
      COIN_FREQUENCY, PIPE_GAP, WINDOW_WIDTH, WINDOW_HEIGHT, List.foldl, zeroSin]

/-- C1 as amended: a boundary-triggered game over does not short-cut
the current tick. The guard of Game.update only skips whole ticks: a
tick that starts with game_over on is a no-op, and a tick that starts
running executes all six steps unconditionally, in particular spawning,
advancing, scoring and collection still run after the boundary check of
the same tick has set game_over. -/
theorem boundary_no_skip_amended :
    (∀ (sinQ : ℚ → ℚ) (now gap jitter safeY : ℤ) (special : Bool) (t0 : ℚ)
        (st : GameState), st.game_over = true →
      gameUpdate sinQ now gap jitter safeY special t0 st = st) ∧
    (∀ (sinQ : ℚ → ℚ) (now gap jitter safeY : ℤ) (special : Bool) (t0 : ℚ)
        (st : GameState), st.game_over = false → st.shopActive = false →
      gameUpdate sinQ now gap jitter safeY special t0 st =
        coinPhase sinQ (pipePhase (coinSpawnPhase now jitter safeY special t0
          (pipeSpawnPhase now gap (boundaryPhase (birdPhase st)))))) := by
  constructor
  · intro sinQ now gap jitter safeY special t0 st h
    rw [gameUpdate, if_neg]
    rw [h]
    simp
  · intro sinQ now gap jitter safeY special t0 st h0 hs
    rw [gameUpdate, if_pos ⟨by rw [h0]; exact Bool.false_ne_true,
      by rw [hs]; exact Bool.false_ne_true⟩]

/-- Closed witness for the amended C1: a finished game state is left
untouched by a tick, and on the counterexample state the tick equals
the unconditional six-step pipeline. -/
theorem boundary_no_skip_amended_witness :
    gameUpdate zeroSin 0 300 0 300 false 0 { gameBase with game_over := true } =
      { gameBase with game_over := true } ∧
    gameUpdate zeroSin 0 300 0 300 false 0 exStC1 =
      coinPhase zeroSin (pipePhase (coinSpawnPhase 0 0 300 false 0
        (pipeSpawnPhase 0 300 (boundaryPhase (birdPhase exStC1))))) :=
  ⟨boundary_no_skip_amended.1 zeroSin 0 300 0 300 false 0 _ rfl,
   boundary_no_skip_amended.2 zeroSin 0 300 0 300 false 0 exStC1 rfl rfl⟩

end FlappyBird
